import Mathlib

/-!
# Verification of the certificate fulfillment backend

Shallow embedding of the fulfillment workflow of the vemana-form backend
(`server.js`, `azureBlobService.js`, `smsService.js`): the POST handlers
`/api/submit`, `/api/send-certificate/:id`, `/api/send-sms/:id` and
GET `/api/download-certificate/:id`, together with the blob-store helpers
`uploadToBlob`, `blobExists`, `generateBlobSASUrl` and the SMS phone
normalization of `sendCertificateSMS`.

External collaborators (renderer, blob store, mail/SMS transports, HTTP
download) are modelled by an environment `Env` that fixes the outcome of
each call. Each handler is a pure function from the environment and its
inputs to an `Outcome`: the HTTP status, the final database row, the
ordered log of side effects, and the temporary files left on disk.
-/

set_option autoImplicit false

namespace Vemana

/-- A SAS (shared-access-signature) URL as produced by `generateBlobSASUrl`:
it addresses one blob and carries an expiry instant baked into the query
string at generation time. -/
structure SasUrl where
  blobName : String
  expiresAt : Nat
deriving Repr, DecidableEq

/-- A row of the `submissions` table, restricted to the columns the
fulfillment workflow reads or writes. -/
structure Submission where
  id : Nat
  name : String
  email : String
  phone : String
  certificate_path : Option String
  certificate_url : Option SasUrl
  certificate_sent : Bool
  certificate_sent_at : Option Nat
  send_method : Option String
deriving Repr, DecidableEq

/-- Outcome of each external call, fixed up front: `renderOk` is
`generateCertificate`, `uploadOk` is `blockBlobClient.upload` (together with
SAS generation inside `uploadToBlob`), `existsResult` is the underlying
`blockBlobClient.exists()` call (`Except.error` = the storage SDK threw),
`emailOk` is `sendCertificateEmail`, `smsOk` is `sendCertificateSMS`,
`downloadOk` is the `axios.get` fetch of the stored artifact. `newId` is the
identity value the insert returns and `now` is `Date.now()`. -/
structure Env where
  renderOk : Bool
  uploadOk : Bool
  existsResult : Except Unit Bool
  emailOk : Bool
  smsOk : Bool
  downloadOk : Bool
  newId : Nat
  now : Nat
deriving Repr

/-- One entry of the side-effect log. `dbSetSent`'s argument is the
`send_method` value written by the UPDATE, `none` when the UPDATE statement
does not touch the `send_method` column. -/
inductive Effect where
  | dbInsert (id : Nat)
  | render (fileName : String)
  | existsCheck (blobName : Option String)
  | upload (blobName : String)
  | sasGen (blobName : String) (expiresAt : Nat)
  | dbSetCert (id : Nat) (path : String) (url : SasUrl)
  | dbSetSent (id : Nat) (method : Option String)
  | emailSend (recipient : String)
  | smsSend (recipient : String) (url : SasUrl)
  | download (url : SasUrl)
  | tempDelete (fileName : String)
deriving Repr, DecidableEq

/-- The whitespace class of JavaScript `String.prototype.trim` (restricted
to the ASCII whitespace the data in this system can contain). -/
def isWS (c : Char) : Bool :=
  c = ' ' || c = '\t' || c = '\r' || c = '\n'

/-- JavaScript `s.trim()`: strip leading and trailing whitespace. -/
def jsTrim (s : String) : String :=
  String.mk (((s.data.dropWhile isWS).reverse.dropWhile isWS).reverse)

/-- JavaScript `s.startsWith("+")`. -/
def startsWithPlus (s : String) : Bool :=
  match s.data with
  | c :: _ => c = '+'
  | [] => false

/-- JavaScript truthiness of a possibly-absent string field of `req.body`:
`undefined`/`null` and `""` are falsy, every other string is truthy. -/
def truthy : Option String → Bool
  | none => false
  | some s => s != ""

/-- `generateBlobSASUrl(blobName, expiresInHours)`: a read-only SAS URL whose
`expiresOn` is `now + expiresInHours * 3600 * 1000` milliseconds. -/
def generateBlobSASUrl (blobName : String) (now : Nat) (expiresInHours : Nat) : SasUrl :=
  { blobName := blobName, expiresAt := now + expiresInHours * 3600 * 1000 }

/-- `blobExists(blobName)`: returns the SDK's answer, but catches any error
the SDK throws and returns `false` in that case. -/
def blobExists (env : Env) : Bool :=
  match env.existsResult with
  | .ok b => b
  | .error _ => false

/-- The phone-number normalization inside `sendCertificateSMS`: trim, then
prepend the default country code `+91` unless the number already starts
with `+`. -/
def normalizePhone (phone : String) : String :=
  let p := jsTrim phone
  if startsWithPlus p then p else "+91" ++ p

/-- The delivery channel chosen for a submission. -/
inductive Channel where
  | email
  | sms
  | none
deriving Repr, DecidableEq

/-- The channel-selection condition of `server.js` (`/api/submit`, lines
132 and 143, repeated verbatim at lines 163 and 167):
`email && email.trim() !== ""` picks email, else
`phone && phone.trim() !== ""` picks sms, else no notification. -/
def selectChannel (email phone : Option String) : Channel :=
  if truthy email && jsTrim (email.getD "") != "" then Channel.email
  else if truthy phone && jsTrim (phone.getD "") != "" then Channel.sms
  else Channel.none

/-- The channel selection as the spec words it: "if email is present and
non-empty [after trimming], channel = email; else if phone is present and
non-empty, channel = sms; else channel = none". -/
def selectChannelSpec (email phone : Option String) : Channel :=
  match email with
  | some e => if jsTrim e ≠ "" then Channel.email
              else match phone with
                   | some p => if jsTrim p ≠ "" then Channel.sms else Channel.none
                   | Option.none => Channel.none
  | Option.none =>
      match phone with
      | some p => if jsTrim p ≠ "" then Channel.sms else Channel.none
      | Option.none => Channel.none

/-- Result of one handler invocation: HTTP status, the submission row as the
handler leaves it (`none`: no row was created / found), the ordered log of
collaborator and database effects, the temporary files still on disk when
the handler returns, and the `sendMethod` field of the JSON response body
(`/api/submit` only). -/
structure Outcome where
  status : Nat
  sub : Option Submission
  effects : List Effect
  tempFiles : List String
  sendMethodResp : Option String
deriving Repr, DecidableEq

/-- The temporary file name `certificate_{id}_{Date.now()}.pdf`. -/
def certFileName (id : Nat) (now : Nat) : String :=
  "certificate_" ++ toString id ++ "_" ++ toString now ++ ".pdf"

/-- Effect on the row of `UPDATE submissions SET certificate_sent = 1,
certificate_sent_at = GETDATE() [, send_method = @send_method] WHERE id = @id`.
`method = none` models the UPDATE statements of `/api/send-certificate` and
`/api/send-sms`, which do not mention the `send_method` column. -/
def markSent (s : Submission) (now : Nat) (method : Option String) : Submission :=
  { s with
    certificate_sent := true
    certificate_sent_at := some now
    send_method := match method with | some m => some m | none => s.send_method }

/-- Effect on the row of `UPDATE submissions SET certificate_path = @certificate_path,
certificate_url = @certificate_url WHERE id = @id`. -/
def setCert (s : Submission) (path : String) (url : SasUrl) : Submission :=
  { s with
    certificate_path := some path
    certificate_url := some url }

/-- POST `/api/submit` (`server.js` lines 51-183). Validation, INSERT,
`generateCertificate`, `uploadToBlob`, UPDATE of the certificate columns,
channel-prioritized dispatch (email before SMS), UPDATE of
`certificate_sent`/`certificate_sent_at`/`send_method` on notifier success,
`fs.unlinkSync` of the temp file, 201 response. Any thrown error lands in
the outer catch: a 500 response with every effect up to the throw already
performed and the cleanup statement skipped. -/
def submitHandler (env : Env) (name email phone : Option String) : Outcome :=
  if !truthy name then
    { status := 400, sub := none, effects := [], tempFiles := [], sendMethodResp := none }
  else if !truthy email && !truthy phone then
    { status := 400, sub := none, effects := [], tempFiles := [], sendMethodResp := none }
  else
    let id := env.newId
    let sub0 : Submission :=
      { id := id, name := name.getD "", email := email.getD "", phone := phone.getD "",
        certificate_path := none, certificate_url := none,
        certificate_sent := false, certificate_sent_at := none, send_method := none }
    let fileName := certFileName id env.now
    if !env.renderOk then
      { status := 500, sub := some sub0,
        effects := [.dbInsert id, .render fileName],
        tempFiles := [], sendMethodResp := none }
    else if !env.uploadOk then
      { status := 500, sub := some sub0,
        effects := [.dbInsert id, .render fileName, .upload fileName],
        tempFiles := [fileName], sendMethodResp := none }
    else
      let url := generateBlobSASUrl fileName env.now 1
      let sub1 : Submission := setCert sub0 fileName url
      let eff0 : List Effect :=
        [.dbInsert id, .render fileName, .upload fileName, .sasGen fileName url.expiresAt,
         .dbSetCert id fileName url]
      match selectChannel email phone with
      | Channel.email =>
          if !env.emailOk then
            { status := 500, sub := some sub1,
              effects := eff0 ++ [.emailSend sub0.email],
              tempFiles := [fileName], sendMethodResp := none }
          else
            { status := 201,
              sub := some (markSent sub1 env.now (some "email")),
              effects := eff0 ++ [.emailSend sub0.email, .dbSetSent id (some "email"),
                                  .tempDelete fileName],
              tempFiles := [], sendMethodResp := some "email" }
      | Channel.sms =>
          if !env.smsOk then
            { status := 500, sub := some sub1,
              effects := eff0 ++ [.smsSend (normalizePhone sub0.phone) url],
              tempFiles := [fileName], sendMethodResp := none }
          else
            { status := 201,
              sub := some (markSent sub1 env.now (some "sms")),
              effects := eff0 ++ [.smsSend (normalizePhone sub0.phone) url,
                                  .dbSetSent id (some "sms"), .tempDelete fileName],
              tempFiles := [], sendMethodResp := some "sms" }
      | Channel.none =>
          { status := 201, sub := some sub1,
            effects := eff0 ++ [.tempDelete fileName],
            tempFiles := [], sendMethodResp := some "none" }

/-- Result of the artifact availability check + regeneration block:
either a thrown error (the handler answers 500 with the effects already
performed and the temp files left behind), or the row as the block leaves
it, the value of the `certificateUrl` local variable, and the effect log. -/
inductive RegenResult where
  | thrown (effects : List Effect) (tempFiles : List String)
  | ready (row : Submission) (url : SasUrl) (effects : List Effect)
deriving Repr, DecidableEq

/-- The regeneration body shared by `/api/send-certificate` (lines 281-306),
`/api/send-sms` (lines 367-392) and `/api/download-certificate` (lines
438-462): `generateCertificate`, `uploadToBlob`, UPDATE of the certificate
columns, `fs.unlinkSync` of the temp file. `pre` is the effect log
accumulated before the block. -/
def regenerate (env : Env) (p : Submission) (pre : List Effect) : RegenResult :=
  let fileName := certFileName p.id env.now
  if !env.renderOk then
    .thrown (pre ++ [.render fileName]) []
  else if !env.uploadOk then
    .thrown (pre ++ [.render fileName, .upload fileName]) [fileName]
  else
    let url := generateBlobSASUrl fileName env.now 1
    .ready (setCert p fileName url) url
      (pre ++ [.render fileName, .upload fileName, .sasGen fileName url.expiresAt,
               .dbSetCert p.id fileName url, .tempDelete fileName])

/-- The availability check guarding regeneration, shared by the three
by-id handlers: `if (!certificateUrl || !(await blobExists(participant.certificate_path)))`
regenerate, else keep the stored `certificate_url` value. `blobExists` is
only called when `certificateUrl` is truthy (JS short-circuit). -/
def ensureArtifact (env : Env) (p : Submission) : RegenResult :=
  match p.certificate_url with
  | some u =>
      if blobExists env then .ready p u [.existsCheck p.certificate_path]
      else regenerate env p [.existsCheck p.certificate_path]
  | none => regenerate env p []

/-- POST `/api/send-certificate/:id` (`server.js` lines 255-338): 404 when
the row is missing, 400 when the row has no usable email, availability
check + regeneration, then download of the artifact from the stored or
fresh URL into a temp file named after the ORIGINAL row's
`certificate_path` (line 310 uses `participant.certificate_path`, never the
regenerated name; `path.join` throws when it is NULL), mail dispatch, and
the sent-flag UPDATE — which does not touch `send_method`. -/
def sendCertificateHandler (env : Env) (found : Option Submission) : Outcome :=
  match found with
  | none =>
      { status := 404, sub := none, effects := [], tempFiles := [], sendMethodResp := none }
  | some p =>
      if p.email == "" || jsTrim p.email == "" then
        { status := 400, sub := some p, effects := [], tempFiles := [], sendMethodResp := none }
      else
        match ensureArtifact env p with
        | .thrown eff tmp =>
            { status := 500, sub := some p, effects := eff, tempFiles := tmp,
              sendMethodResp := none }
        | .ready p1 url eff =>
            match p.certificate_path with
            | none =>
                { status := 500, sub := some p1, effects := eff, tempFiles := [],
                  sendMethodResp := none }
            | some oldPath =>
                if !env.downloadOk then
                  { status := 500, sub := some p1, effects := eff ++ [.download url],
                    tempFiles := [], sendMethodResp := none }
                else if !env.emailOk then
                  { status := 500, sub := some p1,
                    effects := eff ++ [.download url, .emailSend p.email],
                    tempFiles := [oldPath], sendMethodResp := none }
                else
                  { status := 200, sub := some (markSent p1 env.now none),
                    effects := eff ++ [.download url, .emailSend p.email,
                                       .dbSetSent p.id none, .tempDelete oldPath],
                    tempFiles := [], sendMethodResp := none }

/-- POST `/api/send-sms/:id` (`server.js` lines 341-416): 404 when the row
is missing, 400 when the row has no usable phone, availability check +
regeneration, `sendCertificateSMS(participant, certificateUrl)` with the
stored or fresh URL, and the sent-flag UPDATE — which does not touch
`send_method`. -/
def sendSmsHandler (env : Env) (found : Option Submission) : Outcome :=
  match found with
  | none =>
      { status := 404, sub := none, effects := [], tempFiles := [], sendMethodResp := none }
  | some p =>
      if p.phone == "" || jsTrim p.phone == "" then
        { status := 400, sub := some p, effects := [], tempFiles := [], sendMethodResp := none }
      else
        match ensureArtifact env p with
        | .thrown eff tmp =>
            { status := 500, sub := some p, effects := eff, tempFiles := tmp,
              sendMethodResp := none }
        | .ready p1 url eff =>
            if !env.smsOk then
              { status := 500, sub := some p1,
                effects := eff ++ [.smsSend (normalizePhone p.phone) url],
                tempFiles := [], sendMethodResp := none }
            else
              { status := 200, sub := some (markSent p1 env.now none),
                effects := eff ++ [.smsSend (normalizePhone p.phone) url,
                                   .dbSetSent p.id none],
                tempFiles := [], sendMethodResp := none }

/-- GET `/api/download-certificate/:id` (`server.js` lines 419-484): 404
when the row is missing, availability check + regeneration, then an
`axios.get` of the stored or fresh URL streamed back to the client; no
database mutation past the certificate columns. -/
def downloadHandler (env : Env) (found : Option Submission) : Outcome :=
  match found with
  | none =>
      { status := 404, sub := none, effects := [], tempFiles := [], sendMethodResp := none }
  | some p =>
      match ensureArtifact env p with
      | .thrown eff tmp =>
          { status := 500, sub := some p, effects := eff, tempFiles := tmp,
            sendMethodResp := none }
      | .ready p1 url eff =>
          if !env.downloadOk then
            { status := 500, sub := some p1, effects := eff ++ [.download url],
              tempFiles := [], sendMethodResp := none }
          else
            { status := 200, sub := some p1, effects := eff ++ [.download url],
              tempFiles := [], sendMethodResp := none }

/-- Notifier calls in the effect log. -/
def isNotify : Effect → Bool
  | .emailSend _ => true
  | .smsSend _ _ => true
  | _ => false

/-- The sent-flag UPDATE in the effect log. -/
def isSetSent : Effect → Bool
  | .dbSetSent _ _ => true
  | _ => false

/-- Artifact-store calls in the effect log (upload and existence check). -/
def isStoreCall : Effect → Bool
  | .upload _ => true
  | .existsCheck _ => true
  | _ => false

/-- Rendering calls in the effect log. -/
def isRender : Effect → Bool
  | .render _ => true
  | _ => false

/-- Upload calls in the effect log. -/
def isUpload : Effect → Bool
  | .upload _ => true
  | _ => false

/-- SAS-URL generations in the effect log. -/
def isSasGen : Effect → Bool
  | .sasGen _ _ => true
  | _ => false

/-- `true` iff every sent-flag UPDATE in the log is strictly preceded by
some notifier call; `seen` records whether a notifier call has occurred. -/
def sentOnlyAfterNotifyAux (seen : Bool) : List Effect → Bool
  | [] => true
  | e :: rest =>
      (if isSetSent e then seen else true) && sentOnlyAfterNotifyAux (seen || isNotify e) rest

/-- `true` iff every sent-flag UPDATE in the log comes after a notifier call. -/
def sentOnlyAfterNotify (l : List Effect) : Bool :=
  sentOnlyAfterNotifyAux false l

/-- The channel actually dispatched, read off the effect log. -/
def channelUsed (l : List Effect) : Channel :=
  if l.any (fun e => match e with | .emailSend _ => true | _ => false) then Channel.email
  else if l.any (fun e => match e with | .smsSend _ _ => true | _ => false) then Channel.sms
  else Channel.none

/-- The sent flag of the handler's final row; `false` when there is no row. -/
def sentFlag (o : Outcome) : Bool :=
  match o.sub with
  | some s => s.certificate_sent
  | none => false

/-- An environment in which every collaborator call succeeds. -/
def envAllOk : Env :=
  { renderOk := true
    uploadOk := true
    existsResult := .ok true
    emailOk := true
    smsOk := true
    downloadOk := true
    newId := 7
    now := 1000 }

theorem jsTrim_of_eq_empty {s : String} (h : s = "") : jsTrim s = "" := by
  subst h; decide

theorem jsTrim_empty : jsTrim "" = "" := by decide

/-- C4: channel selection is total with strict email-over-sms priority,
agreeing with the spec's wording, and a submission whose selection is
`none` dispatches no notification. -/
theorem C4_channel_selection (email phone : Option String) :
    selectChannel email phone = selectChannelSpec email phone ∧
    (∀ env name,
      selectChannel email phone = Channel.none →
      (submitHandler env name email phone).effects.any isNotify = false) := by
  constructor
  · cases email with
    | none =>
        cases phone with
        | none => rfl
        | some p =>
            by_cases hp : p = ""
            · subst hp; decide
            · by_cases hq : jsTrim p = ""
              · simp [selectChannel, selectChannelSpec, truthy, hp, hq, jsTrim_empty]
              · simp [selectChannel, selectChannelSpec, truthy, hp, hq, jsTrim_empty]
    | some e =>
        by_cases he : e = ""
        · subst he
          cases phone with
          | none => decide
          | some p =>
              by_cases hp : p = ""
              · subst hp; decide
              · by_cases hq : jsTrim p = ""
                · simp [selectChannel, selectChannelSpec, truthy, hp, hq, jsTrim_empty]
                · simp [selectChannel, selectChannelSpec, truthy, hp, hq, jsTrim_empty]
        · by_cases hq : jsTrim e = ""
          · have : ¬ (truthy (some e) && jsTrim ((some e).getD "") != "") = true := by
              simp [truthy, hq]
            cases phone with
            | none => simp [selectChannel, selectChannelSpec, truthy, he, hq, jsTrim_empty]
            | some p =>
                by_cases hp : p = ""
                · have hp2 : jsTrim p = "" := jsTrim_of_eq_empty hp
                  simp [selectChannel, selectChannelSpec, truthy, he, hq, hp, hp2, jsTrim_empty]
                · by_cases hr : jsTrim p = ""
                  · simp [selectChannel, selectChannelSpec, truthy, he, hq, hp, hr, jsTrim_empty]
                  · simp [selectChannel, selectChannelSpec, truthy, he, hq, hp, hr, jsTrim_empty]
          · simp [selectChannel, selectChannelSpec, truthy, he, hq, jsTrim_empty]
  · intro env name hnone
    unfold submitHandler
    by_cases hn : truthy name
    · simp only [hn, Bool.not_true, Bool.false_eq_true, if_false]
      by_cases hv : (!truthy email && !truthy phone) = true
      · simp [hv]
      · simp only [hv, if_false]
        by_cases hr : env.renderOk
        · by_cases hu : env.uploadOk
          · simp [hr, hu, hnone, isNotify]
          · simp [hr, hu, isNotify]
        · simp [hr, isNotify]
    · simp [hn]

/-- Effects that the availability-check/regeneration block can produce. -/
def isRegenEffect : Effect → Bool
  | .existsCheck _ => true
  | .render _ => true
  | .upload _ => true
  | .sasGen _ _ => true
  | .dbSetCert _ _ _ => true
  | .tempDelete _ => true
  | _ => false

theorem ensureArtifact_effects_regen (env : Env) (p : Submission) :
    (∀ eff tmp, ensureArtifact env p = .thrown eff tmp → eff.all isRegenEffect = true) ∧
    (∀ p1 url eff, ensureArtifact env p = .ready p1 url eff → eff.all isRegenEffect = true) := by
  unfold ensureArtifact regenerate
  cases hc : p.certificate_url with
  | none =>
      by_cases hr : env.renderOk
      · by_cases hu : env.uploadOk
        · simp [hr, hu, isRegenEffect]
        · simp [hr, hu, isRegenEffect]
      · simp [hr, isRegenEffect]
  | some u =>
      by_cases hb : blobExists env
      · simp [hb, isRegenEffect]
      · by_cases hr : env.renderOk
        · by_cases hu : env.uploadOk
          · simp [hb, hr, hu, isRegenEffect]
          · simp [hb, hr, hu, isRegenEffect]
        · simp [hb, hr, isRegenEffect]

theorem ensureArtifact_ready_of_present (env : Env) (p : Submission) (u : SasUrl)
    (hurl : p.certificate_url = some u) (hb : blobExists env = true) :
    ensureArtifact env p = .ready p u [.existsCheck p.certificate_path] := by
  unfold ensureArtifact
  rw [hurl]
  simp [hb]

/-- C5: a submission with neither contact field truthy is rejected before any
collaborator call: no effects at all, no row, channel none, nothing sent. -/
theorem C5_no_contact_noop (env : Env) (name email phone : Option String)
    (he : truthy email = false) (hp : truthy phone = false) :
    (submitHandler env name email phone).effects = [] ∧
    (submitHandler env name email phone).sub = none ∧
    channelUsed (submitHandler env name email phone).effects = Channel.none ∧
    sentFlag (submitHandler env name email phone) = false ∧
    ((submitHandler env name email phone).effects.filter isStoreCall).length = 0 ∧
    ((submitHandler env name email phone).effects.filter isNotify).length = 0 ∧
    ((submitHandler env name email phone).effects.filter isRender).length = 0 := by
  unfold submitHandler
  by_cases hn : truthy name
  · simp [hn, he, hp, channelUsed, sentFlag]
  · simp [hn, channelUsed, sentFlag]

theorem C5_witness :
    (submitHandler envAllOk (some "Lee") (some "") (some "")).effects = [] ∧
    (submitHandler envAllOk (some "Lee") (some "") (some "")).sub = none ∧
    channelUsed (submitHandler envAllOk (some "Lee") (some "") (some "")).effects = Channel.none ∧
    sentFlag (submitHandler envAllOk (some "Lee") (some "") (some "")) = false ∧
    ((submitHandler envAllOk (some "Lee") (some "") (some "")).effects.filter isStoreCall).length = 0 ∧
    ((submitHandler envAllOk (some "Lee") (some "") (some "")).effects.filter isNotify).length = 0 ∧
    ((submitHandler envAllOk (some "Lee") (some "") (some "")).effects.filter isRender).length = 0 :=
  C5_no_contact_noop envAllOk (some "Lee") (some "") (some "") (by decide) (by decide)

/-- C10: a whitespace-only phone with an empty email passes the untrimmed
intake check, so the certificate is rendered, uploaded and recorded, yet the
trimming channel selection dispatches nothing: 201, sendMethod "none",
sent flag false. -/
theorem C10_whitespace_phone (env : Env) (name email : Option String) (ph : String)
    (hn : truthy name = true) (he : truthy email = false)
    (hne : ph ≠ "") (hws : jsTrim ph = "")
    (hr : env.renderOk = true) (hu : env.uploadOk = true) :
    (submitHandler env name email (some ph)).status = 201 ∧
    (submitHandler env name email (some ph)).sendMethodResp = some "none" ∧
    (submitHandler env name email (some ph)).effects.any isRender = true ∧
    (submitHandler env name email (some ph)).effects.any isUpload = true ∧
    sentFlag (submitHandler env name email (some ph)) = false ∧
    (∃ s, (submitHandler env name email (some ph)).sub = some s ∧
      s.certificate_sent = false ∧ s.certificate_url ≠ Option.none ∧
      s.certificate_path ≠ Option.none) ∧
    (submitHandler env name email (some ph)).effects.any isNotify = false := by
  have hsel : selectChannel email (some ph) = Channel.none := by
    simp [selectChannel, he, hws]
  have hpt : truthy (some ph) = true := by
    simp [truthy, hne]
  unfold submitHandler
  simp [hn, he, hpt, hr, hu, hsel, sentFlag, setCert, isRender, isUpload, isNotify]

theorem C10_witness :
    (submitHandler envAllOk (some "W") (some "") (some " ")).status = 201 ∧
    (submitHandler envAllOk (some "W") (some "") (some " ")).sendMethodResp = some "none" ∧
    (submitHandler envAllOk (some "W") (some "") (some " ")).effects.any isRender = true ∧
    (submitHandler envAllOk (some "W") (some "") (some " ")).effects.any isUpload = true ∧
    sentFlag (submitHandler envAllOk (some "W") (some "") (some " ")) = false ∧
    (∃ s, (submitHandler envAllOk (some "W") (some "") (some " ")).sub = some s ∧
      s.certificate_sent = false ∧ s.certificate_url ≠ Option.none ∧
      s.certificate_path ≠ Option.none) ∧
    (submitHandler envAllOk (some "W") (some "") (some " ")).effects.any isNotify = false :=
  C10_whitespace_phone envAllOk (some "W") (some "") " " (by decide) (by decide)
    (by decide) (by decide) (by decide) (by decide)

theorem regen_effects_flags {eff : List Effect} (h : eff.all isRegenEffect = true) :
    ∀ e ∈ eff, isNotify e = false ∧ isSetSent e = false := by
  intro e he
  have hx := List.all_eq_true.mp h e he
  cases e <;> simp_all [isRegenEffect, isNotify, isSetSent]

theorem smsSend_not_mem_regen {eff : List Effect} (h : eff.all isRegenEffect = true)
    {r : String} {u : SasUrl} : Effect.smsSend r u ∉ eff := by
  intro hm
  have hx := (regen_effects_flags h _ hm).1
  simp [isNotify] at hx

/-- C8: SMS recipient numbers are normalized deterministically: trim, keep a
number already carrying the international-prefix marker, otherwise prepend
the fixed default +91; and every SMS dispatched by the handlers carries the
normalized form of the submission's phone. -/
theorem C8_sms_normalization (s : String) (env : Env) (p : Submission)
    (name email phone : Option String) :
    (startsWithPlus (jsTrim s) = true → normalizePhone s = jsTrim s) ∧
    (startsWithPlus (jsTrim s) = false → normalizePhone s = "+91" ++ jsTrim s) ∧
    normalizePhone "9876543210" = "+919876543210" ∧
    (∀ r u, Effect.smsSend r u ∈ (sendSmsHandler env (some p)).effects →
      r = normalizePhone p.phone) ∧
    (∀ r u, Effect.smsSend r u ∈ (submitHandler env name email phone).effects →
      r = normalizePhone (phone.getD "")) := by
  refine ⟨?_, ?_, by decide, ?_, ?_⟩
  · intro h; unfold normalizePhone; simp [h]
  · intro h; unfold normalizePhone; simp [h]
  · intro r u hmem
    unfold sendSmsHandler at hmem
    by_cases hg : (p.phone == "" || jsTrim p.phone == "") = true
    · simp [hg] at hmem
    · simp only [hg] at hmem
      cases hea : ensureArtifact env p with
      | thrown eff tmp =>
          rw [hea] at hmem
          simp at hmem
          exact absurd hmem
            (smsSend_not_mem_regen ((ensureArtifact_effects_regen env p).1 eff tmp hea))
      | ready p1 url eff =>
          rw [hea] at hmem
          have hreg := (ensureArtifact_effects_regen env p).2 p1 url eff hea
          by_cases hs : env.smsOk
          · simp [hs] at hmem
            rcases hmem with hmem | hmem
            · exact absurd hmem (smsSend_not_mem_regen hreg)
            · exact hmem.1
          · simp [hs] at hmem
            rcases hmem with hmem | hmem
            · exact absurd hmem (smsSend_not_mem_regen hreg)
            · exact hmem.1
  · intro r u hmem
    unfold submitHandler at hmem
    by_cases hn : truthy name
    · by_cases hv : (!truthy email && !truthy phone) = true
      · simp [hn, hv] at hmem
      · by_cases hr2 : env.renderOk
        · by_cases hu2 : env.uploadOk
          · cases hsel : selectChannel email phone with
            | email =>
                by_cases he2 : env.emailOk <;>
                  simp [hn, hv, hr2, hu2, hsel, he2, isNotify] at hmem
            | sms =>
                by_cases hs2 : env.smsOk <;>
                · simp [hn, hv, hr2, hu2, hsel, hs2] at hmem
                  exact hmem.1
            | none =>
                simp [hn, hv, hr2, hu2, hsel] at hmem
          · simp [hn, hv, hr2, hu2] at hmem
        · simp [hn, hv, hr2] at hmem
    · simp [hn] at hmem

/-- C2: when the row already stores an artifact URL and the store reports the
blob present, a further fulfillment invocation performs no rendering and no
upload: the existence check short-circuits regeneration. -/
theorem C2_idempotent_no_regen (env : Env) (p : Submission) (u : SasUrl)
    (hurl : p.certificate_url = some u) (hb : blobExists env = true) :
    (sendCertificateHandler env (some p)).effects.any isRender = false ∧
    (sendCertificateHandler env (some p)).effects.any isUpload = false ∧
    (sendSmsHandler env (some p)).effects.any isRender = false ∧
    (sendSmsHandler env (some p)).effects.any isUpload = false := by
  have hea := ensureArtifact_ready_of_present env p u hurl hb
  have hcert : ∀ f : Effect → Bool,
      (∀ q, f (.existsCheck q) = false) → (∀ v, f (.download v) = false) →
      (∀ r, f (.emailSend r) = false) → (∀ i m, f (.dbSetSent i m) = false) →
      (∀ t, f (.tempDelete t) = false) →
      (sendCertificateHandler env (some p)).effects.any f = false := by
    intro f h1 h2 h3 h4 h5
    simp only [sendCertificateHandler, hea]
    by_cases hg : (p.email == "" || jsTrim p.email == "") = true
    · simp [hg]
    · cases hcp : p.certificate_path with
      | none => simp [hg, hcp, h1]
      | some oldPath =>
          by_cases hd : env.downloadOk
          · by_cases he2 : env.emailOk
            · simp [hg, hcp, hd, he2, h1, h2, h3, h4, h5]
            · simp [hg, hcp, hd, he2, h1, h2, h3]
          · simp [hg, hcp, hd, h1, h2]
  have hsms : ∀ f : Effect → Bool,
      (∀ q, f (.existsCheck q) = false) → (∀ r w, f (.smsSend r w) = false) →
      (∀ i m, f (.dbSetSent i m) = false) →
      (sendSmsHandler env (some p)).effects.any f = false := by
    intro f h1 h2 h3
    simp only [sendSmsHandler, hea]
    by_cases hg : (p.phone == "" || jsTrim p.phone == "") = true
    · simp [hg]
    · by_cases hs : env.smsOk
      · simp [hg, hs, h1, h2, h3]
      · simp [hg, hs, h1, h2]
  exact ⟨hcert isRender (fun _ => rfl) (fun _ => rfl) (fun _ => rfl) (fun _ _ => rfl) (fun _ => rfl),
         hcert isUpload (fun _ => rfl) (fun _ => rfl) (fun _ => rfl) (fun _ _ => rfl) (fun _ => rfl),
         hsms isRender (fun _ => rfl) (fun _ _ => rfl) (fun _ _ => rfl),
         hsms isUpload (fun _ => rfl) (fun _ _ => rfl) (fun _ _ => rfl)⟩

theorem sentAux_append (seen : Bool) (l m : List Effect) :
    sentOnlyAfterNotifyAux seen (l ++ m) =
      (sentOnlyAfterNotifyAux seen l &&
       sentOnlyAfterNotifyAux (seen || l.any isNotify) m) := by
  induction l generalizing seen with
  | nil => simp [sentOnlyAfterNotifyAux]
  | cons e rest ih =>
      simp [sentOnlyAfterNotifyAux, ih, List.any_cons, Bool.or_assoc, Bool.and_assoc]

theorem sentAux_of_regen {eff : List Effect} (h : eff.all isRegenEffect = true) :
    ∀ seen : Bool, sentOnlyAfterNotifyAux seen eff = true := by
  induction eff with
  | nil => intro seen; rfl
  | cons e rest ih =>
      intro seen
      rw [List.all_cons, Bool.and_eq_true] at h
      obtain ⟨he, hrest⟩ := h
      have hset : isSetSent e = false := by
        cases e <;> simp_all [isRegenEffect, isSetSent]
      unfold sentOnlyAfterNotifyAux
      simp [hset, ih hrest]

theorem ensureArtifact_not_thrown (env : Env) (p : Submission)
    (hr : env.renderOk = true) (hu : env.uploadOk = true) (eff : List Effect)
    (tmp : List String) : ensureArtifact env p ≠ .thrown eff tmp := by
  unfold ensureArtifact regenerate
  cases p.certificate_url <;> by_cases hb : blobExists env <;> simp [hr, hu, hb]

theorem ensureArtifact_ready_props (env : Env) (p p1 : Submission) (url : SasUrl)
    (eff : List Effect) (h : ensureArtifact env p = .ready p1 url eff) :
    p1.certificate_url = some url ∧ p1.certificate_sent = p.certificate_sent ∧
    p1.send_method = p.send_method ∧ p1.email = p.email ∧ p1.phone = p.phone ∧
    p1.id = p.id := by
  unfold ensureArtifact regenerate at h
  cases hc : p.certificate_url with
  | none =>
      rw [hc] at h
      by_cases hr : env.renderOk
      · by_cases hu : env.uploadOk
        · simp [hr, hu] at h
          obtain ⟨h1, h2, h3⟩ := h
          subst h1; subst h2
          simp [setCert]
        · simp [hr, hu] at h
      · simp [hr] at h
  | some u =>
      rw [hc] at h
      by_cases hb : blobExists env
      · simp [hb] at h
        obtain ⟨h1, h2, h3⟩ := h
        subst h1; subst h2
        exact ⟨hc, rfl, rfl, rfl, rfl, rfl⟩
      · by_cases hr : env.renderOk
        · by_cases hu : env.uploadOk
          · simp [hb, hr, hu] at h
            obtain ⟨h1, h2, h3⟩ := h
            subst h1; subst h2
            simp [setCert]
          · simp [hb, hr, hu] at h
        · simp [hb, hr] at h

theorem selectChannel_email_truthy {email phone : Option String}
    (h : selectChannel email phone = Channel.email) : truthy email = true := by
  unfold selectChannel at h
  by_cases h1 : (truthy email && jsTrim (email.getD "") != "") = true
  · rw [Bool.and_eq_true] at h1
    exact h1.1
  · rw [if_neg (by simpa using h1)] at h
    split at h <;> simp_all

theorem selectChannel_sms_truthy {email phone : Option String}
    (h : selectChannel email phone = Channel.sms) : truthy phone = true := by
  unfold selectChannel at h
  by_cases h1 : (truthy email && jsTrim (email.getD "") != "") = true
  · rw [if_pos (by simpa using h1)] at h
    simp_all
  · rw [if_neg (by simpa using h1)] at h
    by_cases h2 : (truthy phone && jsTrim (phone.getD "") != "") = true
    · rw [Bool.and_eq_true] at h2
      exact h2.1
    · rw [if_neg (by simpa using h2)] at h
      simp_all

/-- C1: across the three fulfillment handlers, the sent-flag UPDATE occurs in
the effect log only after a notifier call; and when the notifier throws, the
handler answers 500 with the artifact already stored and recorded on the row
while the sent flag keeps its prior value (false for a fresh submission). -/
theorem C1_sent_after_notifier (env : Env) (name email phone : Option String)
    (p : Submission) :
    sentOnlyAfterNotify (submitHandler env name email phone).effects = true ∧
    sentOnlyAfterNotify (sendCertificateHandler env (some p)).effects = true ∧
    sentOnlyAfterNotify (sendSmsHandler env (some p)).effects = true ∧
    (selectChannel email phone = Channel.email → truthy name = true →
      env.renderOk = true → env.uploadOk = true → env.emailOk = false →
      (submitHandler env name email phone).status = 500 ∧
      sentFlag (submitHandler env name email phone) = false ∧
      (∃ s, (submitHandler env name email phone).sub = some s ∧
        s.certificate_url ≠ Option.none ∧ s.certificate_path ≠ Option.none)) ∧
    (selectChannel email phone = Channel.sms → truthy name = true →
      env.renderOk = true → env.uploadOk = true → env.smsOk = false →
      (submitHandler env name email phone).status = 500 ∧
      sentFlag (submitHandler env name email phone) = false ∧
      (∃ s, (submitHandler env name email phone).sub = some s ∧
        s.certificate_url ≠ Option.none ∧ s.certificate_path ≠ Option.none)) ∧
    (env.renderOk = true → env.uploadOk = true → env.downloadOk = true →
      env.emailOk = false → (p.email == "" || jsTrim p.email == "") = false →
      ∀ cp, p.certificate_path = some cp →
      (sendCertificateHandler env (some p)).status = 500 ∧
      (∃ q, (sendCertificateHandler env (some p)).sub = some q ∧
        q.certificate_sent = p.certificate_sent ∧ q.certificate_url ≠ Option.none)) ∧
    (env.renderOk = true → env.uploadOk = true → env.smsOk = false →
      (p.phone == "" || jsTrim p.phone == "") = false →
      (sendSmsHandler env (some p)).status = 500 ∧
      (∃ q, (sendSmsHandler env (some p)).sub = some q ∧
        q.certificate_sent = p.certificate_sent ∧ q.certificate_url ≠ Option.none)) := by
  refine ⟨?_, ?_, ?_, ?_, ?_, ?_, ?_⟩
  · unfold submitHandler
    by_cases hn : truthy name
    · by_cases hv : (!truthy email && !truthy phone) = true
      · simp [hn, hv, sentOnlyAfterNotify, sentOnlyAfterNotifyAux]
      · by_cases hr : env.renderOk
        · by_cases hu : env.uploadOk
          · cases hsel : selectChannel email phone with
            | email =>
                by_cases he : env.emailOk <;>
                  simp [hn, hv, hr, hu, hsel, he, sentOnlyAfterNotify,
                        sentOnlyAfterNotifyAux, isSetSent, isNotify]
            | sms =>
                by_cases hs : env.smsOk <;>
                  simp [hn, hv, hr, hu, hsel, hs, sentOnlyAfterNotify,
                        sentOnlyAfterNotifyAux, isSetSent, isNotify]
            | none =>
                simp [hn, hv, hr, hu, hsel, sentOnlyAfterNotify,
                      sentOnlyAfterNotifyAux, isSetSent, isNotify]
          · simp [hn, hv, hr, hu, sentOnlyAfterNotify, sentOnlyAfterNotifyAux,
                  isSetSent, isNotify]
        · simp [hn, hv, hr, sentOnlyAfterNotify, sentOnlyAfterNotifyAux,
                isSetSent, isNotify]
    · simp [hn, sentOnlyAfterNotify, sentOnlyAfterNotifyAux]
  · simp only [sendCertificateHandler]
    by_cases hg : (p.email == "" || jsTrim p.email == "") = true
    · simp [hg, sentOnlyAfterNotify, sentOnlyAfterNotifyAux]
    · cases hea : ensureArtifact env p with
      | thrown eff tmp =>
          have hreg := (ensureArtifact_effects_regen env p).1 eff tmp hea
          simp [hg, hea, sentOnlyAfterNotify, sentAux_of_regen hreg]
      | ready p1 url eff =>
          have hreg := (ensureArtifact_effects_regen env p).2 p1 url eff hea
          cases hcp : p.certificate_path with
          | none => simp [hg, hea, hcp, sentOnlyAfterNotify, sentAux_of_regen hreg]
          | some oldPath =>
              by_cases hd : env.downloadOk
              · by_cases hem : env.emailOk
                · simp [hg, hea, hcp, hd, hem, sentOnlyAfterNotify, sentAux_append,
                        sentAux_of_regen hreg, sentOnlyAfterNotifyAux, isSetSent, isNotify]
                · simp [hg, hea, hcp, hd, hem, sentOnlyAfterNotify, sentAux_append,
                        sentAux_of_regen hreg, sentOnlyAfterNotifyAux, isSetSent, isNotify]
              · simp [hg, hea, hcp, hd, sentOnlyAfterNotify, sentAux_append,
                      sentAux_of_regen hreg, sentOnlyAfterNotifyAux, isSetSent, isNotify]
  · simp only [sendSmsHandler]
    by_cases hg : (p.phone == "" || jsTrim p.phone == "") = true
    · simp [hg, sentOnlyAfterNotify, sentOnlyAfterNotifyAux]
    · cases hea : ensureArtifact env p with
      | thrown eff tmp =>
          have hreg := (ensureArtifact_effects_regen env p).1 eff tmp hea
          simp [hg, hea, sentOnlyAfterNotify, sentAux_of_regen hreg]
      | ready p1 url eff =>
          have hreg := (ensureArtifact_effects_regen env p).2 p1 url eff hea
          by_cases hs : env.smsOk
          · simp [hg, hea, hs, sentOnlyAfterNotify, sentAux_append,
                  sentAux_of_regen hreg, sentOnlyAfterNotifyAux, isSetSent, isNotify]
          · simp [hg, hea, hs, sentOnlyAfterNotify, sentAux_append,
                  sentAux_of_regen hreg, sentOnlyAfterNotifyAux, isSetSent, isNotify]
  · intro hsel hn hr hu he
    have hte := selectChannel_email_truthy hsel
    have hv : (!truthy email && !truthy phone) = false := by simp [hte]
    unfold submitHandler
    simp [hn, hv, hr, hu, hsel, he, sentFlag, setCert]
  · intro hsel hn hr hu hs
    have htp := selectChannel_sms_truthy hsel
    have hv : (!truthy email && !truthy phone) = false := by simp [htp]
    unfold submitHandler
    simp [hn, hv, hr, hu, hsel, hs, sentFlag, setCert]
  · intro hr hu hd he hg cp hcp
    cases hea : ensureArtifact env p with
    | thrown eff tmp => exact absurd hea (ensureArtifact_not_thrown env p hr hu eff tmp)
    | ready p1 url eff =>
        have hp := ensureArtifact_ready_props env p p1 url eff hea
        simp only [sendCertificateHandler, hea]
        simp [hg, hcp, hd, he, hp.1, hp.2.1]
  · intro hr hu hs hg
    cases hea : ensureArtifact env p with
    | thrown eff tmp => exact absurd hea (ensureArtifact_not_thrown env p hr hu eff tmp)
    | ready p1 url eff =>
        have hp := ensureArtifact_ready_props env p p1 url eff hea
        simp only [sendSmsHandler, hea]
        simp [hg, hs, hp.1, hp.2.1]

/-- Environment in which the blob upload throws. -/
def envUploadFail : Env := { envAllOk with uploadOk := false }

/-- Environment in which the mail transport throws. -/
def envEmailFail : Env := { envAllOk with emailOk := false }

/-- Environment in which the SMS transport throws. -/
def envSmsFail : Env := { envAllOk with smsOk := false }

/-- Environment in which the storage SDK throws inside the existence check. -/
def envExistsError : Env := { envAllOk with existsResult := .error () }

/-- Same healthy environment, observed 10,000,000 ms later - past the
expiry of any URL generated at upload time 1000. -/
def envLate : Env := { envAllOk with now := 10000000 }

/-- A stored row with a phone number, a stored artifact and its upload-time
URL (generated at time 1000, expiring at 3601000). -/
def pSample : Submission :=
  { id := 3
    name := "Ravi"
    email := ""
    phone := "9876543210"
    certificate_path := some "cert_3.pdf"
    certificate_url := some { blobName := "cert_3.pdf", expiresAt := 3601000 }
    certificate_sent := false
    certificate_sent_at := none
    send_method := none }

/-- A row whose certificate was already delivered once by email. -/
def pEmailed : Submission :=
  { pSample with
    certificate_sent := true
    certificate_sent_at := some 500
    send_method := some "email" }

/-- C3 counterexample: when the store upload throws on a fresh /api/submit,
the handler answers 500 with the fulfillment fields unchanged, but the
temporary certificate file is NOT removed - the cleanup statement is never
reached. -/
theorem C3_counterexample :
    (submitHandler envUploadFail (some "Asha") (some "a@x.com") Option.none).status = 500 ∧
    (submitHandler envUploadFail (some "Asha") (some "a@x.com") Option.none).tempFiles =
      ["certificate_7_1000.pdf"] ∧
    (submitHandler envUploadFail (some "Asha") (some "a@x.com") Option.none).sub =
      some { id := 7, name := "Asha", email := "a@x.com", phone := "",
             certificate_path := Option.none, certificate_url := Option.none,
             certificate_sent := false, certificate_sent_at := Option.none,
             send_method := Option.none } := by
  decide

/-- C6 counterexample: when the storage SDK throws inside the existence
check, blobExists swallows the error and answers as if the blob were
absent; /api/send-sms then regenerates and completes with a 200 instead of
surfacing the store error. -/
theorem C6_counterexample :
    blobExists envExistsError = false ∧
    (sendSmsHandler envExistsError (some pSample)).status = 200 ∧
    (sendSmsHandler envExistsError (some pSample)).effects.any isRender = true ∧
    (sendSmsHandler envExistsError (some pSample)).effects.any isUpload = true := by
  decide

/-- C7 counterexample: a successful SMS send through /api/send-sms on a row
previously delivered by email leaves send_method = "email": the claim that
the tag tracks the most recent successful notification is false. -/
theorem C7_counterexample :
    (sendSmsHandler envAllOk (some pEmailed)).status = 200 ∧
    channelUsed (sendSmsHandler envAllOk (some pEmailed)).effects = Channel.sms ∧
    ((sendSmsHandler envAllOk (some pEmailed)).sub.map Submission.send_method) =
      some (some "email") := by
  decide

/-- C9 counterexample: /api/send-sms invoked long after upload reuses the
stored upload-time SAS URL (expiry 3601000 < now) and generates no fresh
URL, contradicting the claim that a fresh access URL is obtained. -/
theorem C9_counterexample :
    (sendSmsHandler envLate (some pSample)).effects.any isSasGen = false ∧
    Effect.smsSend "+919876543210" { blobName := "cert_3.pdf", expiresAt := 3601000 } ∈
      (sendSmsHandler envLate (some pSample)).effects ∧
    3601000 < envLate.now := by
  decide

/-- C3 amended: the temp file is removed exactly on the paths that reach the
cleanup statement; when the upload or the notifier throws, the 500 response
leaves the temp file on disk (with fulfillment fields unchanged in the
upload case). -/
theorem C3_cleanup_amended (env : Env) (name email phone : Option String)
    (p : Submission)
    (hn : truthy name = true) (hv : (!truthy email && !truthy phone) = false)
    (hr : env.renderOk = true) :
    (env.uploadOk = false →
      (submitHandler env name email phone).status = 500 ∧
      (submitHandler env name email phone).tempFiles = [certFileName env.newId env.now] ∧
      (∃ s, (submitHandler env name email phone).sub = some s ∧
        s.certificate_url = Option.none ∧ s.certificate_path = Option.none ∧
        s.certificate_sent = false)) ∧
    (env.uploadOk = true → selectChannel email phone = Channel.email → env.emailOk = false →
      (submitHandler env name email phone).status = 500 ∧
      (submitHandler env name email phone).tempFiles = [certFileName env.newId env.now]) ∧
    (env.uploadOk = true → selectChannel email phone = Channel.sms → env.smsOk = false →
      (submitHandler env name email phone).status = 500 ∧
      (submitHandler env name email phone).tempFiles = [certFileName env.newId env.now]) ∧
    (env.uploadOk = true → env.emailOk = true → env.smsOk = true →
      (submitHandler env name email phone).tempFiles = []) ∧
    (∀ u cp, p.certificate_url = some u → blobExists env = true →
      p.certificate_path = some cp → (p.email == "" || jsTrim p.email == "") = false →
      env.downloadOk = true → env.emailOk = false →
      (sendCertificateHandler env (some p)).status = 500 ∧
      (sendCertificateHandler env (some p)).tempFiles = [cp]) := by
  refine ⟨?_, ?_, ?_, ?_, ?_⟩
  · intro hu
    unfold submitHandler
    simp [hn, hv, hr, hu]
  · intro hu hsel he
    unfold submitHandler
    simp [hn, hv, hr, hu, hsel, he]
  · intro hu hsel hs
    unfold submitHandler
    simp [hn, hv, hr, hu, hsel, hs]
  · intro hu he hs
    unfold submitHandler
    cases hsel : selectChannel email phone <;> simp [hn, hv, hr, hu, hsel, he, hs]
  · intro u cp hurl hb hcp hg hd he
    have hea := ensureArtifact_ready_of_present env p u hurl hb
    simp only [sendCertificateHandler, hea]
    simp [hg, hcp, hd, he]

/-- C6 amended: an upload failure is fatal and surfaced with no notification
attempted and the row unchanged; but a failure of the underlying existence
check is caught by blobExists and converted into a blob-absent answer, so
the by-id handlers regenerate instead of surfacing the error. -/
theorem C6_store_failure_amended (env : Env) (p : Submission)
    (name email phone : Option String) :
    (∀ e, env.existsResult = Except.error e → blobExists env = false) ∧
    (truthy name = true → (!truthy email && !truthy phone) = false →
      env.renderOk = true → env.uploadOk = false →
      (submitHandler env name email phone).status = 500 ∧
      (submitHandler env name email phone).effects.any isNotify = false ∧
      (∃ s, (submitHandler env name email phone).sub = some s ∧
        s.certificate_url = Option.none ∧ s.certificate_sent = false)) ∧
    (env.renderOk = true → env.uploadOk = false → p.certificate_url = Option.none →
      (p.phone == "" || jsTrim p.phone == "") = false →
      (sendSmsHandler env (some p)).status = 500 ∧
      (sendSmsHandler env (some p)).effects.any isNotify = false ∧
      (sendSmsHandler env (some p)).sub = some p) ∧
    (env.renderOk = true → env.uploadOk = false → p.certificate_url = Option.none →
      (p.email == "" || jsTrim p.email == "") = false →
      (sendCertificateHandler env (some p)).status = 500 ∧
      (sendCertificateHandler env (some p)).effects.any isNotify = false ∧
      (sendCertificateHandler env (some p)).sub = some p) := by
  refine ⟨?_, ?_, ?_, ?_⟩
  · intro e he
    unfold blobExists
    rw [he]
  · intro hn hv hr hu
    unfold submitHandler
    simp [hn, hv, hr, hu, isNotify]
  · intro hr hu hurl hg
    have hea : ensureArtifact env p =
        .thrown [.render (certFileName p.id env.now), .upload (certFileName p.id env.now)]
          [certFileName p.id env.now] := by
      unfold ensureArtifact regenerate
      rw [hurl]
      simp [hr, hu]
    simp only [sendSmsHandler, hea]
    simp [hg, isNotify]
  · intro hr hu hurl hg
    have hea : ensureArtifact env p =
        .thrown [.render (certFileName p.id env.now), .upload (certFileName p.id env.now)]
          [certFileName p.id env.now] := by
      unfold ensureArtifact regenerate
      rw [hurl]
      simp [hr, hu]
    simp only [sendCertificateHandler, hea]
    simp [hg, isNotify]

/-- C7 amended: only /api/submit writes the send_method column (to the
channel it used); the two by-id send handlers mark the submission sent but
leave send_method unchanged, so after a later successful SMS the stored tag
can still read "email". -/
theorem C7_send_method_amended (env : Env) (p : Submission)
    (name email phone : Option String) :
    (∀ q, (sendSmsHandler env (some p)).sub = some q → q.send_method = p.send_method) ∧
    (∀ q, (sendCertificateHandler env (some p)).sub = some q →
      q.send_method = p.send_method) ∧
    (truthy name = true → selectChannel email phone = Channel.email →
      env.renderOk = true → env.uploadOk = true → env.emailOk = true →
      ∃ s, (submitHandler env name email phone).sub = some s ∧
        s.send_method = some "email" ∧ s.certificate_sent = true) ∧
    (truthy name = true → selectChannel email phone = Channel.sms →
      env.renderOk = true → env.uploadOk = true → env.smsOk = true →
      ∃ s, (submitHandler env name email phone).sub = some s ∧
        s.send_method = some "sms" ∧ s.certificate_sent = true) := by
  refine ⟨?_, ?_, ?_, ?_⟩
  · intro q hq
    by_cases hg : (p.phone == "" || jsTrim p.phone == "") = true
    · simp only [sendSmsHandler] at hq
      simp [hg] at hq
      subst hq; rfl
    · cases hea : ensureArtifact env p with
      | thrown eff tmp =>
          simp only [sendSmsHandler, hea] at hq
          simp [hg] at hq
          subst hq; rfl
      | ready p1 url eff =>
          have hp := ensureArtifact_ready_props env p p1 url eff hea
          by_cases hs : env.smsOk
          · simp only [sendSmsHandler, hea] at hq
            simp [hg, hs] at hq
            subst hq
            simp [markSent, hp.2.2.1]
          · simp only [sendSmsHandler, hea] at hq
            simp [hg, hs] at hq
            subst hq
            exact hp.2.2.1
  · intro q hq
    by_cases hg : (p.email == "" || jsTrim p.email == "") = true
    · simp only [sendCertificateHandler] at hq
      simp [hg] at hq
      subst hq; rfl
    · cases hea : ensureArtifact env p with
      | thrown eff tmp =>
          simp only [sendCertificateHandler, hea] at hq
          simp [hg] at hq
          subst hq; rfl
      | ready p1 url eff =>
          have hp := ensureArtifact_ready_props env p p1 url eff hea
          cases hcp : p.certificate_path with
          | none =>
              simp only [sendCertificateHandler, hea] at hq
              simp [hg, hcp] at hq
              subst hq
              exact hp.2.2.1
          | some oldPath =>
              by_cases hd : env.downloadOk
              · by_cases hem : env.emailOk
                · simp only [sendCertificateHandler, hea] at hq
                  simp [hg, hcp, hd, hem] at hq
                  subst hq
                  simp [markSent, hp.2.2.1]
                · simp only [sendCertificateHandler, hea] at hq
                  simp [hg, hcp, hd, hem] at hq
                  subst hq
                  exact hp.2.2.1
              · simp only [sendCertificateHandler, hea] at hq
                simp [hg, hcp, hd] at hq
                subst hq
                exact hp.2.2.1
  · intro hn hsel hr hu he
    have hte := selectChannel_email_truthy hsel
    have hv : (!truthy email && !truthy phone) = false := by simp [hte]
    unfold submitHandler
    simp [hn, hv, hr, hu, hsel, he, markSent]
  · intro hn hsel hr hu hs
    have htp := selectChannel_sms_truthy hsel
    have hv : (!truthy email && !truthy phone) = false := by simp [htp]
    unfold submitHandler
    simp [hn, hv, hr, hu, hsel, hs, markSent]

/-- C9 amended: upload-time URLs are 1-hour SAS URLs; when the by-id
handlers reuse an existing stored artifact they send or fetch exactly the
stored upload-time URL and generate no fresh one. -/
theorem C9_url_reuse_amended (env : Env) (p : Submission) (b : String) (t : Nat) :
    (generateBlobSASUrl b t 1).expiresAt = t + 3600 * 1000 ∧
    (∀ u, p.certificate_url = some u → blobExists env = true →
      (p.phone == "" || jsTrim p.phone == "") = false →
      (sendSmsHandler env (some p)).effects.any isSasGen = false ∧
      (env.smsOk = true →
        Effect.smsSend (normalizePhone p.phone) u ∈ (sendSmsHandler env (some p)).effects)) ∧
    (∀ u, p.certificate_url = some u → blobExists env = true →
      (downloadHandler env (some p)).effects.any isSasGen = false ∧
      (env.downloadOk = true →
        Effect.download u ∈ (downloadHandler env (some p)).effects)) := by
  refine ⟨rfl, ?_, ?_⟩
  · intro u hurl hb hg
    have hea := ensureArtifact_ready_of_present env p u hurl hb
    constructor
    · simp only [sendSmsHandler, hea]
      by_cases hs : env.smsOk
      · simp [hg, hs, isSasGen]
      · simp [hg, hs, isSasGen]
    · intro hs
      simp only [sendSmsHandler, hea]
      simp [hg, hs]
  · intro u hurl hb
    have hea := ensureArtifact_ready_of_present env p u hurl hb
    constructor
    · simp only [downloadHandler, hea]
      by_cases hd : env.downloadOk
      · simp [hd, isSasGen]
      · simp [hd, isSasGen]
    · intro hd
      simp only [downloadHandler, hea]
      simp [hd]

/-- A stored row with both contact channels and a stored artifact. -/
def pFull : Submission := { pSample with email := "r@x.com" }

/-- A stored row with both contact channels and no stored artifact yet. -/
def pNoUrl : Submission :=
  { pSample with
    email := "r@x.com"
    certificate_path := Option.none
    certificate_url := Option.none }

theorem C4_witness :
    selectChannel (some "") (some " ") = selectChannelSpec (some "") (some " ") ∧
    (submitHandler envAllOk (some "L") (some "") (some " ")).effects.any isNotify = false :=
  ⟨(C4_channel_selection (some "") (some " ")).1,
   (C4_channel_selection (some "") (some " ")).2 envAllOk (some "L") (by decide)⟩

theorem C2_witness :
    (sendCertificateHandler envAllOk (some pFull)).effects.any isRender = false ∧
    (sendCertificateHandler envAllOk (some pFull)).effects.any isUpload = false ∧
    (sendSmsHandler envAllOk (some pFull)).effects.any isRender = false ∧
    (sendSmsHandler envAllOk (some pFull)).effects.any isUpload = false :=
  C2_idempotent_no_regen envAllOk pFull { blobName := "cert_3.pdf", expiresAt := 3601000 }
    (by decide) (by decide)

theorem C8_witness :
    normalizePhone "+4123" = jsTrim "+4123" ∧
    normalizePhone " 98 " = "+91" ++ jsTrim " 98 " ∧
    normalizePhone "9876543210" = "+919876543210" ∧
    "+919876543210" = normalizePhone pSample.phone :=
  ⟨(C8_sms_normalization "+4123" envAllOk pSample Option.none Option.none Option.none).1
     (by decide),
   (C8_sms_normalization " 98 " envAllOk pSample Option.none Option.none Option.none).2.1
     (by decide),
   (C8_sms_normalization "9876543210" envAllOk pSample Option.none Option.none
     Option.none).2.2.1,
   (C8_sms_normalization "x" envAllOk pSample Option.none Option.none Option.none).2.2.2.1
     "+919876543210" { blobName := "cert_3.pdf", expiresAt := 3601000 } (by decide)⟩

theorem C1_witness :
    sentOnlyAfterNotify
      (submitHandler envEmailFail (some "A") (some "a@x.com") Option.none).effects = true ∧
    ((submitHandler envEmailFail (some "A") (some "a@x.com") Option.none).status = 500 ∧
     sentFlag (submitHandler envEmailFail (some "A") (some "a@x.com") Option.none) = false ∧
     (∃ s, (submitHandler envEmailFail (some "A") (some "a@x.com") Option.none).sub = some s ∧
       s.certificate_url ≠ Option.none ∧ s.certificate_path ≠ Option.none)) :=
  ⟨(C1_sent_after_notifier envEmailFail (some "A") (some "a@x.com") Option.none pFull).1,
   (C1_sent_after_notifier envEmailFail (some "A") (some "a@x.com") Option.none pFull).2.2.2.1
     (by decide) (by decide) (by decide) (by decide) (by decide)⟩

theorem C3_amended_witness :
    ((submitHandler envUploadFail (some "A") (some "a@x.com") Option.none).status = 500 ∧
     (submitHandler envUploadFail (some "A") (some "a@x.com") Option.none).tempFiles =
       [certFileName envUploadFail.newId envUploadFail.now] ∧
     (∃ s, (submitHandler envUploadFail (some "A") (some "a@x.com") Option.none).sub = some s ∧
       s.certificate_url = Option.none ∧ s.certificate_path = Option.none ∧
       s.certificate_sent = false)) ∧
    ((sendCertificateHandler envEmailFail (some pFull)).status = 500 ∧
     (sendCertificateHandler envEmailFail (some pFull)).tempFiles = ["cert_3.pdf"]) :=
  ⟨(C3_cleanup_amended envUploadFail (some "A") (some "a@x.com") Option.none pFull
      (by decide) (by decide) (by decide)).1 (by decide),
   (C3_cleanup_amended envEmailFail (some "A") (some "a@x.com") Option.none pFull
      (by decide) (by decide) (by decide)).2.2.2.2
     { blobName := "cert_3.pdf", expiresAt := 3601000 } "cert_3.pdf"
     (by decide) (by decide) (by decide) (by decide) (by decide) (by decide)⟩

theorem C6_amended_witness :
    blobExists envExistsError = false ∧
    ((submitHandler envUploadFail (some "A") (some "a@x.com") Option.none).status = 500 ∧
     (submitHandler envUploadFail (some "A") (some "a@x.com") Option.none).effects.any
       isNotify = false ∧
     (∃ s, (submitHandler envUploadFail (some "A") (some "a@x.com") Option.none).sub = some s ∧
       s.certificate_url = Option.none ∧ s.certificate_sent = false)) ∧
    ((sendSmsHandler envUploadFail (some pNoUrl)).status = 500 ∧
     (sendSmsHandler envUploadFail (some pNoUrl)).effects.any isNotify = false ∧
     (sendSmsHandler envUploadFail (some pNoUrl)).sub = some pNoUrl) ∧
    ((sendCertificateHandler envUploadFail (some pNoUrl)).status = 500 ∧
     (sendCertificateHandler envUploadFail (some pNoUrl)).effects.any isNotify = false ∧
     (sendCertificateHandler envUploadFail (some pNoUrl)).sub = some pNoUrl) :=
  ⟨(C6_store_failure_amended envExistsError pNoUrl Option.none Option.none Option.none).1 ()
     rfl,
   (C6_store_failure_amended envUploadFail pNoUrl (some "A") (some "a@x.com")
      Option.none).2.1 (by decide) (by decide) (by decide) (by decide),
   (C6_store_failure_amended envUploadFail pNoUrl (some "A") (some "a@x.com")
      Option.none).2.2.1 (by decide) (by decide) (by decide) (by decide),
   (C6_store_failure_amended envUploadFail pNoUrl (some "A") (some "a@x.com")
      Option.none).2.2.2 (by decide) (by decide) (by decide) (by decide)⟩

theorem C7_amended_witness :
    (markSent pEmailed envAllOk.now Option.none).send_method = pEmailed.send_method ∧
    (∃ s, (submitHandler envAllOk (some "R") Option.none (some "9876543210")).sub = some s ∧
      s.send_method = some "sms" ∧ s.certificate_sent = true) :=
  ⟨(C7_send_method_amended envAllOk pEmailed Option.none Option.none Option.none).1
     (markSent pEmailed envAllOk.now Option.none) (by decide),
   (C7_send_method_amended envAllOk pEmailed (some "R") Option.none
      (some "9876543210")).2.2.2 (by decide) (by decide) (by decide) (by decide) (by decide)⟩

theorem C9_amended_witness :
    (generateBlobSASUrl "b" 0 1).expiresAt = 0 + 3600 * 1000 ∧
    (sendSmsHandler envLate (some pSample)).effects.any isSasGen = false ∧
    Effect.smsSend (normalizePhone pSample.phone)
      { blobName := "cert_3.pdf", expiresAt := 3601000 } ∈
      (sendSmsHandler envLate (some pSample)).effects ∧
    (downloadHandler envLate (some pSample)).effects.any isSasGen = false ∧
    Effect.download { blobName := "cert_3.pdf", expiresAt := 3601000 } ∈
      (downloadHandler envLate (some pSample)).effects :=
  ⟨(C9_url_reuse_amended envLate pSample "b" 0).1,
   ((C9_url_reuse_amended envLate pSample "b" 0).2.1
      { blobName := "cert_3.pdf", expiresAt := 3601000 } (by decide) (by decide)
      (by decide)).1,
   ((C9_url_reuse_amended envLate pSample "b" 0).2.1
      { blobName := "cert_3.pdf", expiresAt := 3601000 } (by decide) (by decide)
      (by decide)).2 (by decide),
   ((C9_url_reuse_amended envLate pSample "b" 0).2.2
      { blobName := "cert_3.pdf", expiresAt := 3601000 } (by decide) (by decide)).1,
   ((C9_url_reuse_amended envLate pSample "b" 0).2.2
      { blobName := "cert_3.pdf", expiresAt := 3601000 } (by decide) (by decide)).2
     (by decide)⟩

end Vemana
